import Mathlib

/-!
A shallow embedding of the network reachability prober in
`src/rkt/ping/network_ping.py`, together with theorems checking the
specification's claims about it.

Modelling conventions:
* wall-clock durations and parsed response times are rationals (`ℚ`);
* Python text is `String`, and the handful of `str` methods the script uses
  (`split`, `strip`, `upper`, `replace`, slicing) are re-implemented over
  character lists by structural recursion so that concrete runs reduce
  inside the kernel;
* fallible Python calls return `Except PyExn _`, where `Except.error`
  models an exception propagating out of the call;
* the external `ping` process is an explicit behaviour value (`ExtCall`)
  consumed by the `subprocess.run` model;
* the platform conditional `sys.platform.startswith('win')` is fixed to the
  POSIX branch, which is the branch the repository actually runs on.
-/

/-! ## Python string primitives over character lists -/

/-- Does `pat` match the leading characters of `s`? -/
def charsLead : List Char → List Char → Bool
  | [], _ => true
  | _ :: _, [] => false
  | p :: ps, c :: cs => p == c && charsLead ps cs

/-- Python `str.split(sep)` on character lists.  The recursion is driven by
explicit fuel so that the kernel can evaluate it; every caller passes fuel
at least the length of the input plus one, which makes the fuel-exhausted
arm unreachable for the nonempty separators the script uses. -/
def splitChars (sep : List Char) : ℕ → List Char → List Char → List (List Char)
  | 0, s, cur => [cur.reverse ++ s]
  | fuel + 1, s, cur =>
    match s with
    | [] => [cur.reverse]
    | c :: rest =>
      if charsLead sep (c :: rest) then
        cur.reverse :: splitChars sep fuel ((c :: rest).drop sep.length) []
      else
        splitChars sep fuel rest (c :: cur)

/-- Python `s.split(sep)` (for a nonempty separator). -/
def pySplit (s sep : String) : List String :=
  (splitChars sep.data (s.data.length + 1) s.data []).map String.mk

/-- The characters Python `str.strip()` removes. -/
def isPySpace (c : Char) : Bool :=
  c == ' ' || c == '\t' || c == '\n' || c == '\r' || c == '\x0b' || c == '\x0c'

/-- Python `s.strip()`. -/
def pyStrip (s : String) : String :=
  String.mk (((s.data.dropWhile isPySpace).reverse.dropWhile isPySpace).reverse)

/-- Python `s.upper()` (the script only upper-cases ASCII status words). -/
def pyUpper (s : String) : String :=
  String.mk (s.data.map Char.toUpper)

/-- Python `s.replace(a, b)` for single-character `a` and `b`, which is the
only form the script uses (`.replace('T', ' ')`). -/
def pyReplaceChar (s : String) (a b : Char) : String :=
  String.mk (s.data.map (fun c => if c == a then b else c))

/-- Python `s[:n]`. -/
def pyTake (s : String) (n : ℕ) : String :=
  String.mk (s.data.take n)

/-- Decimal digits of a positive number, fuel-driven. -/
def natDigitsAux : ℕ → ℕ → List Char
  | 0, _ => []
  | _ + 1, 0 => []
  | fuel + 1, n => natDigitsAux fuel (n / 10) ++ [Char.ofNat (48 + n % 10)]

/-- Python `str(n)` for a natural number. -/
def natRepr (n : ℕ) : String :=
  if n = 0 then "0" else String.mk (natDigitsAux (n + 1) n)

/-! ## Exceptions -/

/-- The Python exceptions live in the prober's code paths.
`addressValueError` is a subclass of `ValueError` inside `ipaddress`; which
`except` clauses match which constructors is spelled out at each handler. -/
inductive PyExn where
  | valueError (msg : String)
  | addressValueError (msg : String)
  | timeoutExpired
  | exception (msg : String)
deriving DecidableEq, Repr

deriving instance DecidableEq for Except

/-- `str(e)` for a modelled exception. -/
def pyStr : PyExn → String
  | .valueError m => m
  | .addressValueError m => m
  | .timeoutExpired => "TimeoutExpired"
  | .exception m => m

/-! ## The `ipaddress` standard-library functions the script calls -/

/-- Value of a nonempty all-digit character list. -/
def decDigitsVal? (cs : List Char) : Option ℕ :=
  if cs ≠ [] ∧ cs.all Char.isDigit then
    some (cs.foldl (fun a c => 10 * a + (c.toNat - 48)) 0)
  else none

/-- One dotted-quad octet, per CPython `ipaddress`: one to three decimal
digits, no leading zero in a multi-digit octet, value at most 255. -/
def parseOctet? (s : String) : Option ℕ :=
  match s.data with
  | [] => none
  | c :: cs =>
    if (c :: cs).length ≤ 3 ∧ (c :: cs).all Char.isDigit ∧ (c = '0' → cs = []) then
      match decDigitsVal? (c :: cs) with
      | some v => if v ≤ 255 then some v else none
      | none => none
    else none

/-- `IPv4Address` textual parsing: four octets joined by dots. -/
def parseIPv4 (s : String) : Option ℕ :=
  match pySplit s "." with
  | [a, b, c, d] => do
    let va ← parseOctet? a
    let vb ← parseOctet? b
    let vc ← parseOctet? c
    let vd ← parseOctet? d
    pure (((va * 256 + vb) * 256 + vc) * 256 + vd)
  | _ => none

def isHexChar (c : Char) : Bool :=
  c.isDigit || (('a' ≤ c && c ≤ 'f') || ('A' ≤ c && c ≤ 'F'))

def hexVal (c : Char) : ℕ :=
  if c.isDigit then c.toNat - 48 else if 'a' ≤ c then c.toNat - 87 else c.toNat - 55

/-- One IPv6 group: one to four hexadecimal digits. -/
def parseHexGroup? (s : String) : Option ℕ :=
  match s.data with
  | [] => none
  | cs =>
    if cs.length ≤ 4 ∧ cs.all isHexChar then
      some (cs.foldl (fun a c => 16 * a + hexVal c) 0)
    else none

def combineGroups (gs : List ℕ) : ℕ :=
  gs.foldl (fun a g => a * 65536 + g) 0

/-- Simplified model of CPython IPv6 textual parsing: colon-separated groups
of at most four hexadecimal digits, with at most one `::` abbreviation.
Embedded IPv4 tails, zone identifiers and scoped forms are not modelled; no
claim exercises a textual IPv6 address, the parser only has to reject the
non-address strings the claims use. -/
def parseIPv6 (s : String) : Option ℕ :=
  match pySplit s "::" with
  | [t] =>
    match (pySplit t ":").mapM parseHexGroup? with
    | some gs => if gs.length = 8 then some (combineGroups gs) else none
    | none => none
  | [l, r] =>
    let lp := if l = "" then [] else pySplit l ":"
    let rp := if r = "" then [] else pySplit r ":"
    if lp.length + rp.length ≤ 7 then
      match lp.mapM parseHexGroup?, rp.mapM parseHexGroup? with
      | some lg, some rg =>
        some (combineGroups (lg ++ List.replicate (8 - lg.length - rg.length) 0 ++ rg))
      | _, _ => none
    else none
  | _ => none

/-- A parsed address object: `IPv4Address` or `IPv6Address`. -/
inductive IPAddr where
  | v4 (val : ℕ)
  | v6 (val : ℕ)
deriving DecidableEq, Repr

def IPAddr.numVal : IPAddr → ℕ
  | .v4 n => n
  | .v6 n => n

def IPAddr.isV4 : IPAddr → Bool
  | .v4 _ => true
  | .v6 _ => false

def IPAddr.isV6 : IPAddr → Bool
  | .v4 _ => false
  | .v6 _ => true

/-- `ipaddress.ip_address`: try `IPv4Address`, then `IPv6Address`, catching
their `AddressValueError`s internally, and raise a plain `ValueError` (not
`AddressValueError`) when neither succeeds.  CPython's message wraps the
input in `repr` quotes; the quotes are left off here. -/
def ip_address (s : String) : Except PyExn IPAddr :=
  match parseIPv4 s with
  | some n => .ok (.v4 n)
  | none =>
    match parseIPv6 s with
    | some n => .ok (.v6 n)
    | none => .error (.valueError (s ++ " does not appear to be an IPv4 or IPv6 address"))

/-- `validate_ip` from the source: `try: ip_address(ip_str); return True`
with a single `except AddressValueError: return False` handler.  Any other
exception — in particular the plain `ValueError` that `ip_address` actually
raises on an invalid literal — propagates to the caller. -/
def validate_ip (ip_str : String) : Except PyExn Bool :=
  match ip_address ip_str with
  | .ok _ => .ok true
  | .error (.addressValueError _) => .ok false
  | .error e => .error e

/-- The literal-target loop of `main`: each valid address is appended to
`ip_list`, each invalid one gets a non-fatal warning (collected here as the
second component); an exception escaping `validate_ip` aborts the loop. -/
def mainResolveTargets (targets : List String) :
    Except PyExn (List String × List String) :=
  targets.foldlM (fun acc t => do
    let ok ← validate_ip t
    if ok then pure (acc.1 ++ [t], acc.2) else pure (acc.1, acc.2 ++ [t])) ([], [])

/-- `ip_network(..., strict=False).network_address` for an IPv4 network of
prefix length `p`: the host bits below the prefix are masked away. -/
def ip_network_addr (addr p : ℕ) : ℕ :=
  addr / 2 ^ (32 - p) * 2 ^ (32 - p)

/-- The broadcast address of the same network. -/
def broadcast_addr (addr p : ℕ) : ℕ :=
  ip_network_addr addr p + (2 ^ (32 - p) - 1)

/-- `net.hosts()` as `ping_network_range` consumes it: the addresses strictly
between network and broadcast address — except that CPython special-cases a
/31 to yield both of its addresses and a /32 to yield its single address
(both in `IPv4Network.__init__`). -/
def network_hosts (addr p : ℕ) : List ℕ :=
  if p = 32 then [ip_network_addr addr p]
  else if p = 31 then [ip_network_addr addr p, ip_network_addr addr p + 1]
  else List.range' (ip_network_addr addr p + 1) (2 ^ (32 - p) - 1 - 1)

/-! ## The probe executor (`ping_single_ip`) -/

/-- One probe outcome dictionary.  Dictionary keys that a given status does
not set (`raw_output` on failures, `error` on success) are `none`. -/
structure PingResult where
  ip : String
  status : String
  response_time : Option ℚ
  timestamp : String
  raw_output : Option String
  error : Option String
deriving DecidableEq, Repr

/-- Behaviour of one invocation of the external ping process: either the
process runs to completion after `duration` seconds of wall-clock time with
the given exit code and captured text, or spawning it fails with an
exception. -/
inductive ExtCall where
  | runs (duration : ℚ) (returncode : ℤ) (stdout stderr : String)
  | spawnFails (msg : String)
deriving DecidableEq, Repr

/-- `subprocess.run(cmd, capture_output=True, text=True, timeout=w)`:
returns the completed process when it finishes within the watchdog `w`,
raises `TimeoutExpired` when its wall-clock duration exceeds `w`, and
propagates a spawn failure as an exception.  The wall-clock duration is
returned alongside so the caller can model `end_time - start_time`. -/
def subprocessRun (w : ℚ) : ExtCall → Except PyExn (ℤ × String × String × ℚ)
  | .runs d rc out err => if d ≤ w then .ok (rc, out, err, d) else .error .timeoutExpired
  | .spawnFails m => .error (.exception m)

/-- Model of Python `float()` on the fragment of its input syntax the ping
output parser can meet: an optional sign followed by decimal digits with an
optional fractional part.  Scientific notation, `inf`, `nan`, underscores
and surrounding whitespace are accepted by Python but not modelled; every
string this parser accepts is accepted by Python with the same value. -/
def pyFloat? (s : String) : Option ℚ :=
  let signed : Bool × List Char :=
    match s.data with
    | '-' :: rest => (true, rest)
    | '+' :: rest => (false, rest)
    | cs => (false, cs)
  let core : Option ℚ :=
    match splitChars ['.'] (signed.2.length + 1) signed.2 [] with
    | [a] => (decDigitsVal? a).map (fun n => (n : ℚ))
    | [a, b] =>
      if a = [] ∧ b = [] then none
      else if a = [] then (decDigitsVal? b).map (fun m => (m : ℚ) / 10 ^ b.length)
      else if b = [] then (decDigitsVal? a).map (fun n => (n : ℚ))
      else
        match decDigitsVal? a, decDigitsVal? b with
        | some n, some m => some ((n : ℚ) + (m : ℚ) / 10 ^ b.length)
        | _, _ => none
    | _ => none
  core.map (fun v => if signed.1 then -v else v)

/-- The POSIX branch of the success-output scan, for one line: when the line
contains `"time="`, take the text between the first `"time="` and the next
space and feed it to `float()`; `none` both when the marker is absent and
when `float()` raises, in which case the scan moves to the next line. -/
def parseLine (line : String) : Option ℚ :=
  match pySplit line "time=" with
  | _ :: rest :: _ => pyFloat? ((pySplit rest " ").headD "")
  | _ => none

/-- The whole success-output scan: first line whose `time=` value parses. -/
def parsedTime (stdout : String) : Option ℚ :=
  (pySplit stdout "\n").foldl (fun acc l => acc.orElse (fun _ => parseLine l)) none

/-- Mathematical floor of a rational, computed from its reduced fraction. -/
def ratFloor (q : ℚ) : ℤ :=
  q.num.fdiv q.den

/-- Python `round()` to an integer: round-half-to-even. -/
def roundHalfEven (q : ℚ) : ℤ :=
  if q - ratFloor q < 1 / 2 then ratFloor q
  else if 1 / 2 < q - ratFloor q then ratFloor q + 1
  else if ratFloor q % 2 = 0 then ratFloor q else ratFloor q + 1

/-- Python `round(x, 2)`. -/
def round2 (q : ℚ) : ℚ :=
  (roundHalfEven (q * 100) : ℚ) / 100

/-- The `try:` body of `ping_single_ip`: run the external ping under the
watchdog `timeout + 5`, compute the wall-clock fallback
`round((end_time - start_time) * 1000, 2)`, and branch on the exit code.
On success the scanned `time=` value overrides the wall-clock fallback. -/
def ping_single_ip_body (timeout : ℚ) (call : ExtCall) (ip ts : String) :
    Except PyExn PingResult :=
  match subprocessRun (timeout + 5) call with
  | .error e => .error e
  | .ok (rc, stdout, stderr, dur) =>
    if rc = 0 then
      .ok { ip := ip, status := "online",
            response_time := some ((parsedTime stdout).getD (round2 (dur * 1000))),
            timestamp := ts, raw_output := some (pyStrip stdout), error := none }
    else
      .ok { ip := ip, status := "offline", response_time := none,
            timestamp := ts, raw_output := none,
            error := some (if stderr ≠ "" then pyStrip stderr else "Host unreachable") }

/-- `ping_single_ip`, with its two handlers: `except subprocess.TimeoutExpired`
builds the timeout result, and `except Exception` builds the error result
from `str(e)`; both subsume every exception constructor the model has, so
every path returns a result dictionary.  `ts` stands for
`datetime.now().isoformat()` at completion time. -/
def ping_single_ip (timeout : ℚ) (call : ExtCall) (ip ts : String) :
    Except PyExn PingResult :=
  match ping_single_ip_body timeout call ip ts with
  | .ok r => .ok r
  | .error .timeoutExpired =>
    .ok { ip := ip, status := "timeout", response_time := none, timestamp := ts,
          raw_output := none,
          error := some ("Ping timeout after " ++ toString timeout ++ " seconds") }
  | .error e =>
    .ok { ip := ip, status := "error", response_time := none, timestamp := ts,
          raw_output := none, error := some (pyStr e) }

/-! ## The concurrent dispatcher (`ping_multiple_ips`) -/

/-- Python dict assignment `results[k] = v` on an insertion-ordered
association list: replace the (unique) binding in place when the key is
present, append otherwise. -/
def dictInsert : List (String × PingResult) → String → PingResult →
    List (String × PingResult)
  | [], k, v => [(k, v)]
  | p :: ps, k, v => if p.1 = k then (k, v) :: ps else p :: dictInsert ps k v

/-- The key list of a snapshot. -/
def snapshotKeys (m : List (String × PingResult)) : List String :=
  m.map Prod.fst

/-- `ping_multiple_ips`: every target in the submitted list gets one future,
and `as_completed` hands the finished probes back in some arbitrary
completion order — the model takes that order (`order`, a permutation of the
submitted list) as an argument and stores each finished probe under its
`result['ip']` key.  `env` gives the external process behaviour for each
submitted address and `tsOf` the probe completion timestamp; an exception
re-raised by `future.result()` would propagate out of the loop. -/
def ping_multiple_ips (timeout : ℚ) (env : String → ExtCall)
    (tsOf : String → String) (order : List String) :
    Except PyExn (List (String × PingResult)) :=
  order.foldlM (fun acc ip => do
    let r ← ping_single_ip timeout (env ip) ip (tsOf ip)
    pure (dictInsert acc r.ip r)) []

/-! ## The monitor scheduler (`continuous_monitor`) -/

/-- Python truthiness of the optional `duration` argument: `None` and `0`
are both falsy in `if duration and ...`. -/
def durTruthy : Option ℚ → Bool
  | none => false
  | some d => !(d == 0)

/-- The `while True:` loop of `continuous_monitor`.  State: the current
cycle number (starting at 1), the elapsed time since `start_time`, and the
trace of inter-cycle sleeps performed so far.  Each iteration runs one
dispatch cycle (whose wall-clock cost is `probeTime cycle`, covering the
`ping_multiple_ips` call and the report), then checks the duration bound,
and otherwise sleeps the full `interval` — `time.sleep(interval)` — before
the next cycle.  Returns the number of cycles executed and the sleep trace;
`none` means the fuel ran out before the loop stopped (in particular the
loop never stops when `duration` is falsy). -/
def continuous_monitor_loop (probeTime : ℕ → ℚ) (interval : ℚ)
    (duration : Option ℚ) :
    ℕ → ℕ → ℚ → List ℚ → Option (ℕ × List ℚ)
  | 0, _, _, _ => none
  | fuel + 1, cycle, elapsed, sleeps =>
    let elapsed1 := elapsed + probeTime cycle
    if durTruthy duration = true ∧ duration.getD 0 ≤ elapsed1 then
      some (cycle, sleeps)
    else
      continuous_monitor_loop probeTime interval duration fuel (cycle + 1)
        (elapsed1 + interval) (sleeps ++ [interval])

/-- `continuous_monitor` entry point: cycle counter starts at 1, no time has
elapsed, no sleep has been performed. -/
def continuous_monitor (probeTime : ℕ → ℚ) (interval : ℚ)
    (duration : Option ℚ) (fuel : ℕ) : Option (ℕ × List ℚ) :=
  continuous_monitor_loop probeTime interval duration fuel 1 0 []

/-! ## The reporter (`print_results`) -/

/-- One formatted table row of `print_results`. -/
structure RenderRow where
  ip : String
  statusDisplay : String
  responseText : String
  timeText : String
deriving DecidableEq, Repr

/-- Python truthiness of the optional response time: `None` and `0.0` are
both falsy in `if result['response_time']`. -/
def respTruthy : Option ℚ → Bool
  | none => false
  | some v => !(v == 0)

/-- `"{:.2f}"` formatting of a rational (the Python float sign-of-zero
artefact `-0.00` is not modelled; the script only formats parsed or
measured response times). -/
def format2 (q : ℚ) : String :=
  if roundHalfEven (q * 100) < 0 then
    "-" ++ natRepr ((-roundHalfEven (q * 100)).toNat / 100) ++ "." ++
      (if (-roundHalfEven (q * 100)).toNat % 100 < 10 then "0" else "") ++
      natRepr ((-roundHalfEven (q * 100)).toNat % 100)
  else
    natRepr ((roundHalfEven (q * 100)).toNat / 100) ++ "." ++
      (if (roundHalfEven (q * 100)).toNat % 100 < 10 then "0" else "") ++
      natRepr ((roundHalfEven (q * 100)).toNat % 100)

/-- One row of the table body: upper-cased status with its marker glyph,
`"{:.2f}ms"` of the response time when it is truthy and `"N/A"` otherwise,
and the timestamp cut to seconds with `'T'` replaced by a space. -/
def renderRow (ip : String) (result : PingResult) : RenderRow :=
  { ip := ip
    statusDisplay :=
      if result.status = "online" then "✓ " ++ pyUpper result.status
      else if result.status = "offline" then "✗ " ++ pyUpper result.status
      else "⚠ " ++ pyUpper result.status
    responseText :=
      if respTruthy result.response_time = true then
        format2 (result.response_time.getD 0) ++ "ms"
      else "N/A"
    timeText := pyReplaceChar (pyTake result.timestamp 19) 'T' ' ' }

/-- Stable insertion of one keyed entry after all entries of key at most its
own; folding it over a list is a stable ascending sort, matching Python
`sorted`. -/
def insertByKey (x : ℕ × String × PingResult) :
    List (ℕ × String × PingResult) → List (ℕ × String × PingResult)
  | [] => [x]
  | y :: ys => if y.1 ≤ x.1 then y :: insertByKey x ys else x :: y :: ys

def sortByKey (l : List (ℕ × String × PingResult)) :
    List (ℕ × String × PingResult) :=
  l.foldl (fun acc x => insertByKey x acc) []

/-- What one call of `print_results` writes: either the empty-input notice
or a table (its rows in print order) followed by the summary line. -/
inductive RenderOut where
  | noResults
  | table (rows : List RenderRow) (summary : String)
deriving DecidableEq, Repr

/-- `print_results`: sort the snapshot rows by the numeric value of the
address — `key=lambda x: ip_address(x[0])` — count the statuses, and render.
`ip_address` raising on a malformed key propagates, as does the `TypeError`
that comparing addresses of different IP versions raises inside `sorted`.
The summary line keeps its leading newline from the source f-string. -/
def print_results (results : List (String × PingResult)) :
    Except PyExn RenderOut := do
  if results.isEmpty then
    return .noResults
  let keyed ← results.mapM (fun p => do
    let a ← ip_address p.1
    pure (a, p))
  if (keyed.all (fun q => q.1.isV4) || keyed.all (fun q => q.1.isV6)) = true then
    let sortedResults := sortByKey (keyed.map (fun q => (q.1.numVal, q.2)))
    let online := (results.filter (fun p => p.2.status == "online")).length
    let offline := (results.filter (fun p => p.2.status == "offline")).length
    let errors := (results.filter
      (fun p => p.2.status == "timeout" || p.2.status == "error")).length
    return .table (sortedResults.map (fun q => renderRow q.2.1 q.2.2))
      ("\nSummary: " ++ natRepr online ++ " online, " ++ natRepr offline ++
        " offline, " ++ natRepr errors ++ " errors/timeouts")
  else
    .error (.exception "TypeError: addresses of mixed IP versions do not compare")

/-! ## Concrete scenario data used by the claims -/

/-- The Online(12.3ms) result of the render scenario. -/
def scOnline : PingResult :=
  { ip := "10.0.0.10", status := "online", response_time := some (123 / 10),
    timestamp := "2025-01-01T10:00:00.000001",
    raw_output := some "64 bytes from 10.0.0.10: icmp_seq=1 ttl=64 time=12.3 ms",
    error := none }

/-- The Offline result of the render scenario. -/
def scOffline : PingResult :=
  { ip := "10.0.0.2", status := "offline", response_time := none,
    timestamp := "2025-01-01T10:00:01.000001",
    raw_output := none, error := some "Host unreachable" }

/-- The render-scenario snapshot, in its Python dict insertion order. -/
def renderScenario : List (String × PingResult) :=
  [("10.0.0.10", scOnline), ("10.0.0.2", scOffline)]

/-- An Online result whose measured response time is exactly zero. -/
def scZeroTime : PingResult :=
  { ip := "10.0.0.7", status := "online", response_time := some 0,
    timestamp := "2025-01-01T10:00:02.000001",
    raw_output := some "64 bytes from 10.0.0.7: icmp_seq=1 ttl=64 time=0 ms",
    error := none }

/-- The row fields the ordering-and-summary claim is about. -/
def rowKey (r : RenderRow) : String × String × String :=
  (r.ip, r.statusDisplay, r.timeText)

/-- Project a render outcome to its row keys and its summary line. -/
def renderedRowKeys : RenderOut → Option (List (String × String × String) × String)
  | .noResults => none
  | .table rows s => some (rows.map rowKey, s)

example : parseIPv4 "10.0.0.5" = some 167772165 := by decide
example : parseIPv4 "not-an-ip" = none := by decide
example : parseIPv6 "not-an-ip" = none := by decide
example : pyFloat? "25" = some 25 := by decide
example : pyFloat? "" = none := by decide
example : pyFloat? "1.2.3" = none := by decide
example : parsedTime "64 bytes: time=-1 ms" = some (-1) := by decide

/-! ## Helper lemmas -/

/-- Every call of the probe executor returns a result carrying the probed
address in its `ip` field (the field the dispatcher keys the snapshot by). -/
lemma ping_single_ip_ok_ip (timeout : ℚ) (call : ExtCall) (ip ts : String) :
    ∃ r, ping_single_ip timeout call ip ts = Except.ok r ∧ r.ip = ip := by
  unfold ping_single_ip ping_single_ip_body subprocessRun
  cases call with
  | runs d rc out err =>
    dsimp only
    by_cases hd : d ≤ timeout + 5
    · rw [if_pos hd]
      dsimp only
      by_cases hrc : rc = 0
      · rw [if_pos hrc]; exact ⟨_, rfl, rfl⟩
      · rw [if_neg hrc]; exact ⟨_, rfl, rfl⟩
    · rw [if_neg hd]; exact ⟨_, rfl, rfl⟩
  | spawnFails m => exact ⟨_, rfl, rfl⟩

lemma mem_keys_dictInsert (m : List (String × PingResult)) (k a : String)
    (v : PingResult) :
    a ∈ snapshotKeys (dictInsert m k v) ↔ a ∈ snapshotKeys m ∨ a = k := by
  induction m with
  | nil => simp [dictInsert, snapshotKeys]
  | cons p ps ih =>
    by_cases h : p.1 = k
    · subst h
      simp [dictInsert, snapshotKeys]
      tauto
    · simp only [dictInsert, if_neg h, snapshotKeys, List.map_cons, List.mem_cons] at ih ⊢
      rw [ih]
      tauto

lemma nodup_keys_dictInsert (m : List (String × PingResult)) (k : String)
    (v : PingResult) (h : (snapshotKeys m).Nodup) :
    (snapshotKeys (dictInsert m k v)).Nodup := by
  induction m with
  | nil => simp [dictInsert, snapshotKeys]
  | cons p ps ih =>
    simp only [snapshotKeys, List.map_cons, List.nodup_cons] at h
    by_cases hp : p.1 = k
    · subst hp
      have hd : dictInsert (p :: ps) p.1 v = (p.1, v) :: ps := by
        simp [dictInsert]
      rw [hd]
      simp only [snapshotKeys, List.map_cons, List.nodup_cons]
      exact ⟨h.1, h.2⟩
    · simp only [dictInsert, if_neg hp, snapshotKeys, List.map_cons, List.nodup_cons]
      refine ⟨?_, ih h.2⟩
      intro hmem
      rcases (mem_keys_dictInsert ps k p.1 v).mp hmem with h1 | h2
      · exact h.1 h1
      · exact hp h2

/-- Invariant of the dispatcher's collection loop: no exception escapes, the
accumulated snapshot's keys stay duplicate-free, and its key set is the key
set already accumulated plus the addresses still to collect. -/
lemma ping_multiple_ips_go (timeout : ℚ) (env : String → ExtCall)
    (tsOf : String → String) :
    ∀ (order : List String) (acc : List (String × PingResult)),
      (snapshotKeys acc).Nodup →
      ∃ m, (order.foldlM (fun acc ip => do
              let r ← ping_single_ip timeout (env ip) ip (tsOf ip)
              pure (dictInsert acc r.ip r)) acc : Except PyExn _) = .ok m ∧
        (snapshotKeys m).Nodup ∧
        ∀ k, k ∈ snapshotKeys m ↔ (k ∈ snapshotKeys acc ∨ k ∈ order) := by
  intro order
  induction order with
  | nil =>
    intro acc hacc
    exact ⟨acc, rfl, hacc, by simp⟩
  | cons ip rest ih =>
    intro acc hacc
    obtain ⟨r, hr, hip⟩ := ping_single_ip_ok_ip timeout (env ip) ip (tsOf ip)
    obtain ⟨m, hm, hnd, hmem⟩ := ih (dictInsert acc r.ip r) (nodup_keys_dictInsert _ _ _ hacc)
    refine ⟨m, ?_, hnd, ?_⟩
    · rw [List.foldlM_cons, hr]
      exact hm
    · intro k
      rw [hmem k, mem_keys_dictInsert, hip, List.mem_cons]
      tauto

/-- Invariant of the monitor loop: entering a cycle, at least
`(cycle - 1) * interval` seconds have elapsed (each earlier cycle slept the
full interval), and strictly less than `duration + interval` have (the
previous cycle passed its duration check).  Hence if the loop stops after
`n` cycles, `(n - 2) * interval < duration`. -/
lemma monitor_loop_bound (probeTime : ℕ → ℚ) (interval d : ℚ)
    (hpt : ∀ k, 0 ≤ probeTime k) (hd : 0 < d) :
    ∀ (fuel cycle : ℕ) (elapsed : ℚ) (sleeps : List ℚ) (n : ℕ) (tr : List ℚ),
      ((cycle : ℚ) - 1) * interval ≤ elapsed → elapsed < d + interval →
      continuous_monitor_loop probeTime interval (some d) fuel cycle elapsed sleeps =
        some (n, tr) →
      ((n : ℚ) - 2) * interval < d := by
  intro fuel
  induction fuel with
  | zero =>
    intro cycle elapsed sleeps n tr _ _ h
    simp [continuous_monitor_loop] at h
  | succ fuel ih =>
    intro cycle elapsed sleeps n tr hlow hhigh hrun
    have htr : durTruthy (some d) = true := by
      simp [durTruthy]
      exact hd.ne'
    simp only [continuous_monitor_loop] at hrun
    by_cases hstop : durTruthy (some d) = true ∧
        (some d : Option ℚ).getD 0 ≤ elapsed + probeTime cycle
    · rw [if_pos hstop] at hrun
      obtain ⟨hn, -⟩ := Prod.mk.injEq .. ▸ Option.some.inj hrun
      subst hn
      have : ((cycle : ℚ) - 2) * interval = ((cycle : ℚ) - 1) * interval - interval := by
        ring
      linarith
    · rw [if_neg hstop] at hrun
      have hlt : elapsed + probeTime cycle < d := by
        by_contra hle
        exact hstop ⟨htr, by simpa using not_lt.mp hle⟩
      refine ih (cycle + 1) (elapsed + probeTime cycle + interval)
        (sleeps ++ [interval]) n tr ?_ ?_ hrun
      · have := hpt cycle
        push_cast
        nlinarith [hlow]
      · linarith

/-- Every sleep the monitor loop appends to its trace is the full interval. -/
lemma monitor_loop_sleeps (probeTime : ℕ → ℚ) (interval : ℚ) (duration : Option ℚ) :
    ∀ (fuel cycle : ℕ) (elapsed : ℚ) (sleeps : List ℚ) (n : ℕ) (tr : List ℚ),
      (∀ s ∈ sleeps, s = interval) →
      continuous_monitor_loop probeTime interval duration fuel cycle elapsed sleeps =
        some (n, tr) →
      ∀ s ∈ tr, s = interval := by
  intro fuel
  induction fuel with
  | zero =>
    intro cycle elapsed sleeps n tr _ h
    simp [continuous_monitor_loop] at h
  | succ fuel ih =>
    intro cycle elapsed sleeps n tr hsl hrun
    simp only [continuous_monitor_loop] at hrun
    by_cases hstop : durTruthy duration = true ∧
        (duration.getD 0) ≤ elapsed + probeTime cycle
    · rw [if_pos hstop] at hrun
      obtain ⟨-, htr⟩ := Prod.mk.injEq .. ▸ Option.some.inj hrun
      subst htr
      exact hsl
    · rw [if_neg hstop] at hrun
      refine ih (cycle + 1) (elapsed + probeTime cycle + interval)
        (sleeps ++ [interval]) n tr ?_ hrun
      intro s hs
      rcases List.mem_append.mp hs with h | h
      · exact hsl s h
      · simpa using h

/-! ## The claims -/

/-- C1: for every list of submitted target addresses and every completion
order of the probes, `ping_multiple_ips` returns a snapshot whose key set
equals the set of submitted addresses exactly — every submitted address has
exactly one Probe Result (the key list is duplicate-free) and no other key
appears — regardless of the individual probe outcomes (`env` is arbitrary). -/
theorem dispatch_snapshot_keys_exact (timeout : ℚ) (env : String → ExtCall)
    (tsOf : String → String) (ipList order : List String)
    (hperm : order.Perm ipList) :
    ∃ m, ping_multiple_ips timeout env tsOf order = .ok m ∧
      (snapshotKeys m).Nodup ∧ ∀ k, k ∈ snapshotKeys m ↔ k ∈ ipList := by
  obtain ⟨m, hm, hnd, hmem⟩ :=
    ping_multiple_ips_go timeout env tsOf order [] (by simp [snapshotKeys])
  refine ⟨m, hm, hnd, fun k => ?_⟩
  rw [hmem k]
  simp [snapshotKeys, hperm.mem_iff]

/-- C1 witness: a two-address batch collected in the reverse of submission
order still yields exactly the submitted key set. -/
theorem dispatch_snapshot_keys_exact_witness :
    ∃ m, ping_multiple_ips 3 (fun _ => ExtCall.runs 0 1 "" "") (fun _ => "ts")
        ["8.8.8.8", "1.1.1.1"] = .ok m ∧
      (snapshotKeys m).Nodup ∧
      ∀ k, k ∈ snapshotKeys m ↔ k ∈ ["1.1.1.1", "8.8.8.8"] :=
  dispatch_snapshot_keys_exact 3 (fun _ => ExtCall.runs 0 1 "" "") (fun _ => "ts")
    ["1.1.1.1", "8.8.8.8"] ["8.8.8.8", "1.1.1.1"]
    (List.Perm.swap "1.1.1.1" "8.8.8.8" [])

/-- C2: for every address and every behaviour of the external probe call —
completion with any exit code and output within the watchdog, watchdog
expiry, or a raised exception — `ping_single_ip` returns a Probe Result and
never lets an exception past its boundary. -/
theorem probe_executor_never_raises (timeout : ℚ) (call : ExtCall) (ip ts : String) :
    ∃ r, ping_single_ip timeout call ip ts = Except.ok r := by
  unfold ping_single_ip
  cases h : ping_single_ip_body timeout call ip ts with
  | ok r => exact ⟨r, rfl⟩
  | error e => cases e <;> exact ⟨_, rfl⟩

/-- C3 (code bug): resolving `["10.0.0.5", "10.0.0.5", "not-an-ip"]` does not
reject `"not-an-ip"` non-fatally — `validate_ip` catches only
`AddressValueError` while `ip_address` raises a plain `ValueError` on an
invalid literal, so the exception escapes `validate_ip` and aborts the
resolution loop of `main`. -/
theorem resolve_invalid_literal_raises :
    validate_ip "not-an-ip" =
      .error (.valueError "not-an-ip does not appear to be an IPv4 or IPv6 address") ∧
    mainResolveTargets ["10.0.0.5", "10.0.0.5", "not-an-ip"] =
      .error (.valueError "not-an-ip does not appear to be an IPv4 or IPv6 address") := by
  exact ⟨by decide, by decide⟩

/-- C4: for every probe whose external call exceeds the watchdog cutoff
(`timeout + 5`, the configured timeout plus the grace margin), the returned
Probe Result has status `"timeout"` and no response time. -/
theorem probe_watchdog_yields_timeout (timeout d : ℚ) (rc : ℤ)
    (out err ip ts : String) (h : timeout + 5 < d) :
    ∃ r, ping_single_ip timeout (.runs d rc out err) ip ts = .ok r ∧
      r.status = "timeout" ∧ r.response_time = none := by
  unfold ping_single_ip ping_single_ip_body subprocessRun
  dsimp only
  rw [if_neg (not_le.mpr h)]
  exact ⟨_, rfl, rfl, rfl⟩

/-- C4 witness: a probe taking 9 seconds against a 3-second timeout (8-second
watchdog) is reported as a timeout without a response time. -/
theorem probe_watchdog_yields_timeout_witness :
    ∃ r, ping_single_ip 3 (.runs 9 0 "" "") "1.2.3.4" "ts" = .ok r ∧
      r.status = "timeout" ∧ r.response_time = none :=
  probe_watchdog_yields_timeout 3 9 0 "" "" "1.2.3.4" "ts" (by norm_num)

/-- C5 counterexample: a monitor session with `intervalSeconds = 10`,
`durationSeconds = 25` and instantaneous dispatch cycles executes 4 cycles,
not 3 — the code sleeps the full interval after each duration check, so the
checks fall at elapsed 0, 10, 20 and 30 seconds, and only the fourth
reaches the duration.  This also exceeds the claimed general bound
`floor(duration / interval) + 1 = 3`. -/
theorem monitor_scenario_runs_four_cycles :
    continuous_monitor (fun _ => 0) 10 (some 25) 6 = some (4, [10, 10, 10]) ∧
      4 ≠ 3 := by
  constructor
  · norm_num [continuous_monitor, continuous_monitor_loop, durTruthy]
  · norm_num

/-- C5 (amended): for every positive interval, positive set duration and
nonnegative dispatch times, a monitor run that completes after `n` cycles
satisfies `(n - 2) * interval < duration` (so `n` is at most
`ceil(duration / interval) + 1`); the duration check is performed only after
a full cycle.  With `interval = 10`, `duration = 25` and negligible dispatch
time, exactly 4 cycles are executed. -/
theorem monitor_cycle_count_bound (probeTime : ℕ → ℚ) (interval d : ℚ)
    (fuel n : ℕ) (tr : List ℚ)
    (hpt : ∀ k, 0 ≤ probeTime k) (hi : 0 < interval) (hd : 0 < d)
    (hrun : continuous_monitor probeTime interval (some d) fuel = some (n, tr)) :
    ((n : ℚ) - 2) * interval < d := by
  refine monitor_loop_bound probeTime interval d hpt hd fuel 1 0 [] n tr ?_ ?_ hrun
  · norm_num
  · linarith

/-- C5 witness: the amended bound at the scenario run (4 cycles, interval 10,
duration 25): `(4 - 2) * 10 < 25`. -/
theorem monitor_cycle_count_bound_witness : ((4 : ℚ) - 2) * 10 < 25 :=
  monitor_cycle_count_bound (fun _ => 0) 10 25 6 4 [10, 10, 10]
    (fun _ => le_refl 0) (by norm_num) (by norm_num)
    (by norm_num [continuous_monitor, continuous_monitor_loop, durTruthy])

/-- C6 counterexample: with `intervalSeconds = 10` and every dispatch cycle
taking 3 seconds, the sleep performed between cycles is the full 10 seconds,
not `max(0, 10 - 3) = 7` as the claim requires. -/
theorem monitor_sleep_not_compensated :
    continuous_monitor (fun _ => 3) 10 (some 25) 6 = some (3, [10, 10]) ∧
      (10 : ℚ) ≠ max 0 (10 - 3) := by
  constructor
  · norm_num [continuous_monitor, continuous_monitor_loop, durTruthy]
  · norm_num

/-- C6 (amended): in continuous monitoring, the sleep performed between
consecutive cycles is always the full `intervalSeconds`
(`time.sleep(interval)`), regardless of the elapsed dispatch time of the
cycle just finished — so a slow cycle delays all subsequent cycle
boundaries rather than being absorbed. -/
theorem monitor_sleep_always_full_interval (probeTime : ℕ → ℚ) (interval : ℚ)
    (duration : Option ℚ) (fuel n : ℕ) (tr : List ℚ)
    (hrun : continuous_monitor probeTime interval duration fuel = some (n, tr)) :
    ∀ s ∈ tr, s = interval :=
  monitor_loop_sleeps probeTime interval duration fuel 1 0 [] n tr (by simp) hrun

/-- C6 witness: in the 3-second-dispatch run both recorded sleeps equal the
full 10-second interval. -/
theorem monitor_sleep_always_full_interval_witness :
    ∃ tr, continuous_monitor (fun _ => 3) 10 (some 25) 6 = some (3, tr) ∧
      ∀ s ∈ tr, s = (10 : ℚ) :=
  ⟨[10, 10],
    by norm_num [continuous_monitor, continuous_monitor_loop, durTruthy],
    monitor_sleep_always_full_interval (fun _ => 3) 10 (some 25) 6 3 [10, 10]
      (by norm_num [continuous_monitor, continuous_monitor_loop, durTruthy])⟩

/-- C7 counterexample: `10.0.0.5/32` is a valid CIDR range, yet its
expansion is `[10.0.0.5]` — the network (and broadcast) address itself,
which the claim requires to be excluded (`167772165` is the numeric value
of `10.0.0.5`). -/
theorem cidr_slash32_keeps_network_address :
    parseIPv4 "10.0.0.5" = some 167772165 ∧
    network_hosts 167772165 32 = [167772165] ∧
    ip_network_addr 167772165 32 = 167772165 ∧
    broadcast_addr 167772165 32 = 167772165 := by
  decide

/-- C7 (amended): for every IPv4 CIDR range with prefix length at most 30,
the expansion is duplicate-free and contains exactly the addresses of the
range other than the network and broadcast addresses; a /31 expands to both
of its addresses and a /32 to its single (network) address. -/
theorem cidr_hosts_exclude_network_broadcast (addr p : ℕ) :
    (p ≤ 30 → ((network_hosts addr p).Nodup ∧ ∀ a,
        a ∈ network_hosts addr p ↔
          (ip_network_addr addr p ≤ a ∧ a ≤ broadcast_addr addr p ∧
           a ≠ ip_network_addr addr p ∧ a ≠ broadcast_addr addr p))) ∧
    (p = 31 → network_hosts addr p =
      [ip_network_addr addr p, ip_network_addr addr p + 1]) ∧
    (p = 32 → network_hosts addr p = [ip_network_addr addr p]) := by
  refine ⟨?_, ?_, ?_⟩
  · intro hp
    have hS : 4 ≤ 2 ^ (32 - p) := by
      calc (4 : ℕ) = 2 ^ 2 := by norm_num
      _ ≤ 2 ^ (32 - p) := Nat.pow_le_pow_right (by norm_num) (by omega)
    unfold network_hosts
    rw [if_neg (by omega), if_neg (by omega)]
    constructor
    · exact List.nodup_range' _ _ 1 (by norm_num)
    · intro a
      rw [List.mem_range'_1]
      unfold broadcast_addr
      generalize ip_network_addr addr p = n0
      omega
  · intro h
    subst h
    simp [network_hosts]
  · intro h
    subst h
    simp [network_hosts]

/-- C7 witness: the amended exclusion property at `192.168.1.0/24`
(numeric network value `3232235776`). -/
theorem cidr_hosts_exclude_network_broadcast_witness :
    (network_hosts 3232235776 24).Nodup ∧ ∀ a,
      a ∈ network_hosts 3232235776 24 ↔
        (ip_network_addr 3232235776 24 ≤ a ∧ a ≤ broadcast_addr 3232235776 24 ∧
         a ≠ ip_network_addr 3232235776 24 ∧ a ≠ broadcast_addr 3232235776 24) :=
  (cidr_hosts_exclude_network_broadcast 3232235776 24).1 (by norm_num)

/-- C8 counterexample: the primitive reports reachable (exit code 0) but its
output reads `time=-1 ms`; the parsed response time is `-1 < 0`, so a
successful probe does not always yield a nonnegative response time. -/
theorem probe_online_negative_parsed_time :
    (ping_single_ip 3
        (.runs 0 0 "64 bytes from 1.2.3.4: icmp_seq=1 ttl=64 time=-1 ms" "")
        "1.2.3.4" "ts").toOption.map (fun r => (r.status, r.response_time)) =
      some ("online", some (-1)) ∧
    ¬ ((0 : ℚ) ≤ -1) := by
  constructor
  · norm_num [ping_single_ip, ping_single_ip_body, subprocessRun]
    decide
  · norm_num

/-- C8 (amended): for every probe whose external call completes within the
watchdog with exit code 0, the returned Probe Result has status `"online"`
and a present response time; the value is nonnegative provided the
wall-clock duration is nonnegative and any `time=` value parsed from the
primitive's output is nonnegative. -/
theorem probe_online_response_time_nonneg (timeout d : ℚ) (out err ip ts : String)
    (hd0 : 0 ≤ d) (hdw : d ≤ timeout + 5)
    (hpar : ∀ v, parsedTime out = some v → 0 ≤ v) :
    ∃ r, ping_single_ip timeout (.runs d 0 out err) ip ts = .ok r ∧
      r.status = "online" ∧ ∃ v, r.response_time = some v ∧ 0 ≤ v := by
  unfold ping_single_ip ping_single_ip_body subprocessRun
  dsimp only
  rw [if_pos hdw]
  dsimp only
  rw [if_pos rfl]
  refine ⟨_, rfl, rfl, (parsedTime out).getD (round2 (d * 1000)), rfl, ?_⟩
  cases hp : parsedTime out with
  | none =>
    simp only [hp, Option.getD_none]
    have h1 : (0 : ℚ) ≤ d * 1000 * 100 := by positivity
    have h2 : (0 : ℤ) ≤ roundHalfEven (d * 1000 * 100) := by
      unfold roundHalfEven ratFloor
      have hnum : 0 ≤ (d * 1000 * 100).num := Rat.num_nonneg.mpr h1
      have hfd : (0 : ℤ) ≤ (d * 1000 * 100).num.fdiv (d * 1000 * 100).den :=
        Int.fdiv_nonneg hnum (by positivity)
      split
      · exact hfd
      · split
        · omega
        · split
          · exact hfd
          · omega
    unfold round2
    exact div_nonneg (by exact_mod_cast h2) (by norm_num)
  | some v =>
    simp only [hp, Option.getD_some]
    exact hpar v hp

/-- C8 witness: a 0-second reachable probe with unparseable output falls
back to the wall-clock duration, which is nonnegative. -/
theorem probe_online_response_time_nonneg_witness :
    ∃ r, ping_single_ip 3 (.runs 0 0 "" "") "1.2.3.4" "ts" = .ok r ∧
      r.status = "online" ∧ ∃ v, r.response_time = some v ∧ 0 ≤ v :=
  probe_online_response_time_nonneg 3 0 "" "" "1.2.3.4" "ts" (le_refl 0)
    (by norm_num)
    (fun v hv => by
      rw [show parsedTime "" = none from by decide] at hv
      exact Option.noConfusion hv)

/-- C9: rendering the scenario snapshot lists `10.0.0.2` before `10.0.0.10`
(numeric, not lexicographic, address order) and the trailing summary line
reads "1 online, 1 offline, 0 errors/timeouts", counting the Timeout and
Error statuses together. -/
theorem render_numeric_order_and_summary :
    (print_results renderScenario).toOption.bind renderedRowKeys =
      some ([("10.0.0.2", "✗ OFFLINE", "2025-01-01 10:00:01"),
             ("10.0.0.10", "✓ ONLINE", "2025-01-01 10:00:00")],
        "\nSummary: 1 online, 1 offline, 0 errors/timeouts") := by
  decide

/-- C10: a snapshot entry with status Online and a response time of exactly
`0.0` renders its response-time column as `"N/A"` — the same display as an
absent response time — because the display condition tests Python
truthiness of the value, not its presence. -/
theorem render_zero_response_time_na (ip : String) (r : PingResult)
    (_hst : r.status = "online") (hrt : r.response_time = some 0) :
    (renderRow ip r).responseText = "N/A" ∧
    (renderRow ip { r with response_time := none }).responseText = "N/A" := by
  constructor
  · simp [renderRow, hrt, respTruthy]
  · simp [renderRow, respTruthy]

/-- C10 witness: the zero-response-time Online entry renders "N/A", as does
the same entry with the response time absent. -/
theorem render_zero_response_time_na_witness :
    (renderRow "10.0.0.7" scZeroTime).responseText = "N/A" ∧
    (renderRow "10.0.0.7" { scZeroTime with response_time := none }).responseText = "N/A" :=
  render_zero_response_time_na "10.0.0.7" scZeroTime rfl rfl
